import Mathlib

/-!
Verification of the Right-To-Repair live-video frame-quality pipeline.

This file gives a shallow embedding of the client-side frame-quality
subsystem of the repository:

* `frameQuality.ts` — `estimateBrightness`, `estimateContrast`,
  `estimateSharpness`, `estimateStability`, `assessFrameQuality`,
  `isFrameGoodQuality`;
* `useVideoHooks.ts` — the `useVideoStream` capture loop (tick with
  quality gating and fallback emission, `stopStream`, unmount cleanup)
  and the `useVisionWebSocket` channel (`connect`, `disconnect`,
  `sendFrame`, the inbound-message dispatch);
* the result view of `LiveVideoAnalysis.tsx` (confidence display).

Modelling conventions: JavaScript numbers are embedded as exact
rationals wherever the source computes only field operations, and as
real numbers where `Math.sqrt` forces irrational values (contrast,
sharpness, and the quality score that compares them).  A JavaScript
division `0 / 0` (which produces `NaN`) is embedded by returning
`Option`-`none` from the function that performs it.  Pixel buffers
(`ImageData`) are records of a width, a height and a flat RGBA byte
list; `Uint8ClampedArray` reads inside the loop bounds are embedded
with `List.getD` (the source never reads out of bounds on a
well-formed buffer at the indices its loops visit, except where noted).
-/

/-- JavaScript `Math.round`: round half toward positive infinity. -/
noncomputable def jsRound (x : ℝ) : ℝ := (⌊x + 1/2⌋ : ℤ)

/-- A raw RGBA pixel buffer, as handed to the estimators by
`ctx.getImageData`: `data` lists the bytes row-major, four bytes
(R, G, B, A) per pixel. -/
structure ImageData where
  width : ℕ
  height : ℕ
  data : List ℕ
deriving DecidableEq, Repr

/-- A buffer as the browser actually produces it: the byte list has
exactly `4 * width * height` entries and each byte is at most 255. -/
def ImageData.WellFormed (img : ImageData) : Prop :=
  img.data.length = 4 * img.width * img.height ∧ ∀ x ∈ img.data, x ≤ 255

/-- The luminosity formula `0.299 * r + 0.587 * g + 0.114 * b` used by
`estimateBrightness` and `estimateContrast`. -/
def lum (r g b : ℕ) : ℚ :=
  (299 : ℚ) / 1000 * r + (587 : ℚ) / 1000 * g + (114 : ℚ) / 1000 * b

/-- The byte indices visited by the loop
`for (let i = 0; i < len; i += 16)`: every 16th index below `len`. -/
def sampleIndices (len : ℕ) : List ℕ :=
  (List.range ((len + 15) / 16)).map (fun k => 16 * k)

/-- The luminance samples shared by `estimateBrightness` and
`estimateContrast`: for each sampled byte index `i`, the luminosity of
`data[i], data[i+1], data[i+2]`. -/
def lumSamples (d : List ℕ) : List ℚ :=
  (sampleIndices d.length).map
    (fun i => lum (d.getD i 0) (d.getD (i + 1) 0) (d.getD (i + 2) 0))

/-- `estimateBrightness`: the summed luminance samples divided by
`data.length / 16`.  Note the divisor is the untruncated quotient, not
the number of samples actually taken. -/
def estimateBrightness (img : ImageData) : ℚ :=
  (lumSamples img.data).sum / ((img.data.length : ℚ) / 16)

/-- The mean of the luminance samples in `estimateContrast`
(`pixels.reduce((a, b) => a + b) / pixels.length`). -/
def contrastMean (img : ImageData) : ℚ :=
  (lumSamples img.data).sum / ((lumSamples img.data).length : ℚ)

/-- The variance computed by `estimateContrast` before its final
`Math.sqrt`. -/
def contrastVariance (img : ImageData) : ℚ :=
  ((lumSamples img.data).map (fun p => (p - contrastMean img) ^ 2)).sum /
    ((lumSamples img.data).length : ℚ)

/-- `estimateContrast`: the square root of the sample variance of the
luminance samples. -/
noncomputable def estimateContrast (img : ImageData) : ℝ :=
  Real.sqrt (contrastVariance img)

/-- The row coordinates visited by `for (let i = 0; i < height - 4; i += 4)`
(with JavaScript semantics: no iterations when `height ≤ 4`). -/
def strideCoords (bound : ℕ) : List ℕ :=
  (List.range ((bound - 4 + 3) / 4)).map (fun k => 4 * k)

/-- The gradient pairs sampled by `estimateSharpness`: for each sampled
grid point, `(|data[idx] - data[idxRight]|, |data[idx] - data[idxDown]|)`
with `idx = (i * width + j) * 4`, `idxRight = (i * width + j + 1) * 4`,
`idxDown = ((i + 1) * width + j) * 4`. -/
def sharpnessGrads (img : ImageData) : List (ℕ × ℕ) :=
  (strideCoords img.height).flatMap (fun i =>
    (strideCoords img.width).map (fun j =>
      let idx := (i * img.width + j) * 4
      let idxRight := (i * img.width + j + 1) * 4
      let idxDown := ((i + 1) * img.width + j) * 4
      (((img.data.getD idx 0 : ℤ) - img.data.getD idxRight 0).natAbs,
       ((img.data.getD idx 0 : ℤ) - img.data.getD idxDown 0).natAbs)))

/-- `estimateSharpness`: average of the Euclidean gradient magnitudes
over the sampled grid, doubled and capped at 255.  When the sampling
loops take no iteration (width or height at most 4) the source divides
`0 / 0`, producing `NaN`; that case is embedded as `none`. -/
noncomputable def estimateSharpness (img : ImageData) : Option ℝ :=
  let grads := sharpnessGrads img
  if grads.isEmpty then none
  else some (min 255
    ((((grads.map (fun p => Real.sqrt ((p.1 : ℝ) ^ 2 + (p.2 : ℝ) ^ 2))).sum) /
      (grads.length : ℝ)) * 2))

/-- `estimateStability`: 100 on the first frame; otherwise the average
absolute difference of the stride-16 byte samples of the two buffers,
mapped linearly so that average difference 0 gives 100 and average
difference 30 gives 0, clamped below at 0.  (When the previous buffer
is empty the source divides `0 / 0`; no well-formed buffer is empty,
and the theorems below assume positive length.) -/
def estimateStability (prevImg : Option ImageData) (currImg : ImageData) : ℚ :=
  match prevImg with
  | none => 100
  | some p =>
    let idxs := sampleIndices p.data.length
    let totalDiff : ℚ :=
      (idxs.map (fun i =>
        (((p.data.getD i 0 : ℤ) - currImg.data.getD i 0).natAbs : ℚ))).sum
    let avgDiff := totalDiff / (idxs.length : ℚ)
    max 0 (100 - avgDiff / 30 * 100)

open Classical in
/-- The sequential score computation of `assessFrameQuality`
(lines `let score = 100; if ... score -= ...` of the source), applied to
the four raw (unrounded) metric values. -/
noncomputable def scoreRaw (brightness contrast sharpness stability : ℝ) : ℝ :=
  let s0 : ℝ := 100
  let s1 := if brightness < 30 ∨ brightness > 240 then s0 - 30
            else if brightness < 50 ∨ brightness > 200 then s0 - 15 else s0
  let s2 := if contrast < 20 then s1 - 20
            else if contrast < 40 then s1 - 10 else s1
  let s3 := if sharpness < 30 then s2 - 40
            else if sharpness < 60 then s2 - 20 else s2
  if stability < 50 then s3 - 20
  else if stability < 75 then s3 - 10 else s3

/-- The `score` field returned by `assessFrameQuality`:
`Math.max(0, Math.round(score))`. -/
noncomputable def scoreOf (brightness contrast sharpness stability : ℝ) : ℝ :=
  max 0 (jsRound (scoreRaw brightness contrast sharpness stability))

/-- The `FrameMetrics` record of `frameQuality.ts`. -/
structure FrameMetrics where
  brightness : ℝ
  contrast : ℝ
  sharpness : ℝ
  stability : ℝ
  score : ℝ

/-- `assessFrameQuality`: computes the four raw metrics, scores them,
and returns the record of rounded metrics together with the clamped
score.  The result is `none` exactly when `estimateSharpness` produced
`NaN` (see `estimateSharpness`); on every well-formed frame larger than
the sampling stride it is `some`. -/
noncomputable def assessFrameQuality (img : ImageData)
    (prevImg : Option ImageData := none) : Option FrameMetrics :=
  (estimateSharpness img).map (fun sharpness =>
    let brightness : ℝ := estimateBrightness img
    let contrast : ℝ := estimateContrast img
    let stability : ℝ := estimateStability prevImg img
    { brightness := jsRound brightness
      contrast := jsRound contrast
      sharpness := jsRound sharpness
      stability := jsRound stability
      score := scoreOf brightness contrast sharpness stability })

/-- `isFrameGoodQuality`: `metrics.score >= threshold`. -/
def isFrameGoodQuality (metrics : FrameMetrics) (threshold : ℝ := 70) : Prop :=
  threshold ≤ metrics.score

/- ### Spec-side penalty functions (from the words of the claims)

The claims describe the scorer as "start at 100 and subtract
penalties"; the following definitions are taken from that wording, to
be compared against `scoreRaw`/`scoreOf` above. -/

open Classical in
/-- Spec wording: 30 if brightness < 30 or > 240, else 15 if
brightness < 50 or > 200, else 0. -/
noncomputable def specBrightnessPenalty (b : ℝ) : ℤ :=
  if b < 30 ∨ b > 240 then 30 else if b < 50 ∨ b > 200 then 15 else 0

open Classical in
/-- Spec wording: 20 if contrast < 20, else 10 if contrast < 40, else 0. -/
noncomputable def specContrastPenalty (c : ℝ) : ℤ :=
  if c < 20 then 20 else if c < 40 then 10 else 0

open Classical in
/-- Spec wording: 40 if sharpness < 30, else 20 if sharpness < 60, else 0. -/
noncomputable def specSharpnessPenalty (s : ℝ) : ℤ :=
  if s < 30 then 40 else if s < 60 then 20 else 0

open Classical in
/-- Spec wording: 20 if stability < 50, else 10 if stability < 75, else 0. -/
noncomputable def specStabilityPenalty (st : ℝ) : ℤ :=
  if st < 50 then 20 else if st < 75 then 10 else 0

/-- Spec wording: total penalty of the four metrics. -/
noncomputable def specTotalPenalty (b c s st : ℝ) : ℤ :=
  specBrightnessPenalty b + specContrastPenalty c +
    specSharpnessPenalty s + specStabilityPenalty st

/- ### `useVideoStream` (capture loop) -/

/-- A `MediaStreamTrack`: its only observable here is whether
`track.stop()` has been called on it. -/
structure Track where
  stopped : Bool
deriving DecidableEq, Repr

/-- A `MediaStream` as returned by `getUserMedia`: its list of tracks. -/
structure CamStream where
  tracks : List Track
deriving DecidableEq, Repr

/-- The mutable state owned by `useVideoStream`: the `streamRef` and
`prevImageDataRef` refs and the `isStreaming` flag.  `releasedTracks`
is an event log recording every track on which `track.stop()` was
invoked, so that release is observable after the ref is nulled. -/
structure CaptureState where
  streamRef : Option CamStream
  prevImageData : Option ImageData
  isStreaming : Bool
  releasedTracks : List Track
deriving DecidableEq, Repr

/-- `stopStream`: if a stream is held, stop every track, null the ref
and clear `isStreaming`; otherwise do nothing.  (It does not touch
`prevImageDataRef`.) -/
def stopStream (s : CaptureState) : CaptureState :=
  match s.streamRef with
  | some cs =>
    { s with
      streamRef := none
      isStreaming := false
      releasedTracks :=
        s.releasedTracks ++ cs.tracks.map (fun t => { t with stopped := true }) }
  | none => s

/-- The unmount cleanup effect of `useVideoStream`: stop every track of
a held stream and null the ref.  (It does not touch `prevImageDataRef`
or `isStreaming` either.) -/
def unmountCleanup (s : CaptureState) : CaptureState :=
  match s.streamRef with
  | some cs =>
    { s with
      streamRef := none
      releasedTracks :=
        s.releasedTracks ++ cs.tracks.map (fun t => { t with stopped := true }) }
  | none => s

/-- Whether the auto-capture interval of `useVideoStream` is installed:
the effect returns early (no interval) unless `isStreaming` holds and an
`onFrame` callback was supplied, and its cleanup clears the interval as
soon as either turns false. -/
def intervalInstalled (s : CaptureState) (hasOnFrame : Bool) : Bool :=
  s.isStreaming && hasOnFrame

/-- The placeholder metrics record attached to a fallback frame:
`{ brightness: 0, contrast: 0, sharpness: 0, stability: 100, score: 50 }`. -/
def placeholderMetrics : FrameMetrics :=
  { brightness := 0, contrast := 0, sharpness := 0, stability := 100, score := 50 }

open Classical in
/-- One tick of the capture interval.  `avail` is the frame on the
canvas when video and canvas refs (and the 2d context) are available,
`none` otherwise; within one tick `captureFrameWithQuality` and the
fallback `captureFrame` capture the same frame.  The result pairs the
new `prevImageDataRef` value with the emission passed to `onFrame`
(the frame stands for its base64 JPEG data URL).  The outer `Option` is
the partiality inherited from `assessFrameQuality` (NaN-free frames
only). -/
noncomputable def captureTick (prev : Option ImageData) (avail : Option ImageData)
    (minQuality : ℝ) :
    Option (Option ImageData × Option (ImageData × FrameMetrics)) :=
  match avail with
  | none => some (prev, none)
  | some img =>
    (assessFrameQuality img prev).map (fun metrics =>
      (some img,
        if isFrameGoodQuality metrics minQuality then some (img, metrics)
        else some (img, placeholderMetrics)))

/-- Successive capture ticks, threading `prevImageDataRef` and
collecting the per-tick emissions in order. -/
noncomputable def runTicks (prev : Option ImageData) (frames : List (Option ImageData))
    (minQuality : ℝ) :
    Option (Option ImageData × List (Option (ImageData × FrameMetrics))) :=
  frames.foldl
    (fun acc avail => acc.bind (fun pe =>
      (captureTick pe.1 avail minQuality).map (fun pe2 => (pe2.1, pe.2 ++ [pe2.2]))))
    (some (prev, []))

/- ### `useVisionWebSocket` (streaming channel) -/

/-- An inbound message successfully parsed from JSON, as typed in the
source (`VisionResult`): a `type` tag (a plain string at runtime) and
the payload fields the dispatch can store. -/
structure VisionResult where
  rtype : String
  confidence : Option ℚ
  message : Option String
  payloadText : Option String
deriving DecidableEq, Repr

/-- One created WebSocket handle: its `readyState`
(0 CONNECTING, 1 OPEN, 2 CLOSING, 3 CLOSED) and whether the four
`onopen`/`onclose`/`onerror`/`onmessage` listeners `connect` attached
are still attached (the source never detaches them). -/
structure SockRec where
  readyState : ℕ
  listenersAttached : Bool
deriving DecidableEq, Repr

/-- The state owned by `useVisionWebSocket`: every socket ever created
(in creation order, so a handle is an index into `sockets`), the
`wsRef` ref, and the `isConnected` / `currentResult` / `isProcessing` /
`error` pieces of React state. -/
structure WsState where
  sockets : List SockRec
  wsRef : Option ℕ
  isConnected : Bool
  currentResult : Option VisionResult
  isProcessing : Bool
  error : Option String
deriving DecidableEq, Repr

/-- `connect`: construct a new `WebSocket` (born CONNECTING, with the
four listeners attached) and overwrite `wsRef` with it.  Nothing is
done to a previously held handle. -/
def connect (s : WsState) : WsState :=
  { s with
    sockets := s.sockets ++ [{ readyState := 0, listenersAttached := true }]
    wsRef := some s.sockets.length }

/-- `wsRef.current?.readyState === WebSocket.OPEN`. -/
def currentSocketOpen (s : WsState) : Bool :=
  match s.wsRef with
  | some i => (s.sockets.getD i { readyState := 3, listenersAttached := false }).readyState == 1
  | none => false

/-- `ws.close()` on the handle at index `i`: an OPEN socket moves to
CLOSING. -/
def closeSocketAt (socks : List SockRec) (i : ℕ) : List SockRec :=
  socks.mapIdx (fun j sock =>
    if j = i then { sock with readyState := 2 } else sock)

/-- `disconnect`: close the held socket if it is OPEN (close moves it
to CLOSING), then drop the ref and clear the connected/processing
flags regardless. -/
def disconnect (s : WsState) : WsState :=
  let s1 :=
    match s.wsRef with
    | some i =>
      if currentSocketOpen s then { s with sockets := closeSocketAt s.sockets i }
      else s
    | none => s
  { s1 with wsRef := none, isConnected := false, isProcessing := false }

/-- The JSON object `sendFrame` serializes:
`{ type: "frame", data: ..., session_id: ... }`. -/
structure FramePayload where
  ptype : String
  data : List Char
  session_id : Option String
deriving DecidableEq, Repr

/-- The data-URI strip in `sendFrame`:
`base64Frame.includes(',') ? base64Frame.split(',')[1] : base64Frame`.
`split(',')[1]` is the segment strictly between the first and second
commas. -/
def stripFrameData (frame : List Char) : List Char :=
  if ',' ∈ frame then
    ((frame.dropWhile (fun c => c ≠ ',')).tail).takeWhile (fun c => c ≠ ',')
  else frame

/-- `sendFrame`: if the held socket is OPEN, serialize and transmit the
frame payload (state untouched); otherwise log and transmit nothing
(state untouched).  The second component is the transmitted message,
if any. -/
def sendFrame (s : WsState) (base64Frame : List Char) (sessionId : Option String) :
    WsState × Option FramePayload :=
  if currentSocketOpen s then
    (s, some { ptype := "frame", data := stripFrameData base64Frame,
               session_id := sessionId })
  else (s, none)

/-- The `ws.onmessage` dispatch on a successfully parsed message. -/
def handleParsed (s : WsState) (d : VisionResult) : WsState :=
  if d.rtype = "processing_started" then
    { s with isProcessing := true }
  else if d.rtype = "token" ∨ d.rtype = "partial" then
    { s with currentResult := some d }
  else if d.rtype = "complete" then
    { s with currentResult := some d, isProcessing := false }
  else if d.rtype = "error" ∨ d.rtype = "dropped" then
    { s with currentResult := some d, isProcessing := false }
  else if d.rtype = "low_confidence" ∨ d.rtype = "quality_warning" then
    { s with currentResult := some d }
  else s

/-- `ws.onmessage` including the `JSON.parse` try/catch: a malformed
message (`none`) is logged and dropped, leaving the state unchanged. -/
def onMessage (s : WsState) (parsed : Option VisionResult) : WsState :=
  match parsed with
  | none => s
  | some d => handleParsed s d

/- ### `LiveVideoAnalysis.tsx` result view -/

/-- `const confidence = detectionResult.confidence || 0`. -/
def resultConfidence (c : Option ℚ) : ℚ := c.getD 0

/-- The success-indicator branch of the result header:
`confidence >= 70` selects the green check over the amber info icon. -/
def successIndicator (confidence : ℚ) : Bool := 70 ≤ confidence

/-- The displayed percentage: `Math.round(confidence * 100)`. -/
def displayedPercent (confidence : ℚ) : ℤ := ⌊confidence * 100 + 1/2⌋

/- ### Spec-side stability quantity and concrete sample inputs -/

/-- Spec wording (claim C3): the average absolute per-sample difference
between the sampled bytes of the previous and the current buffer. -/
def specAvgDiff (p curr : ImageData) : ℚ :=
  ((sampleIndices p.data.length).map (fun i =>
    (((p.data.getD i 0 : ℤ) - curr.data.getD i 0).natAbs : ℚ))).sum /
    ((sampleIndices p.data.length).length : ℚ)

/-- A 1-by-1 black pixel (opaque). -/
def black1 : ImageData := { width := 1, height := 1, data := [0, 0, 0, 255] }

/-- A 1-by-1 all-white buffer: the smallest valid RGBA buffer. -/
def whiteOne : ImageData :=
  { width := 1, height := 1, data := [255, 255, 255, 255] }

/-- A 3-by-3 black buffer: both dimensions below the sampling stride. -/
def tiny3 : ImageData := { width := 3, height := 3, data := List.replicate 36 0 }

/-- An 8-by-8 black buffer (the minimal-buffer example of the spec). -/
def black8 : ImageData := { width := 8, height := 8, data := List.replicate 256 0 }

/-- A one-track camera stream. -/
def camOne : CamStream := { tracks := [{ stopped := false }] }

/-- A live capture session: one held track, a stored previous frame,
streaming in progress. -/
def s7 : CaptureState :=
  { streamRef := some camOne, prevImageData := some black1,
    isStreaming := true, releasedTracks := [] }

/-- The initial channel state: nothing created yet. -/
def ws0 : WsState :=
  { sockets := [], wsRef := none, isConnected := false,
    currentResult := none, isProcessing := false, error := none }

/-- A channel with one OPEN socket, mid-detection (`isProcessing`). -/
def wsProcessing : WsState :=
  { sockets := [{ readyState := 1, listenersAttached := true }],
    wsRef := some 0, isConnected := true, currentResult := none,
    isProcessing := true, error := none }

/-- A channel with one OPEN socket, idle. -/
def stOpen : WsState :=
  { sockets := [{ readyState := 1, listenersAttached := true }],
    wsRef := some 0, isConnected := true, currentResult := none,
    isProcessing := false, error := none }

/-- A `complete` message with confidence 0.82. -/
def dComplete : VisionResult :=
  { rtype := "complete", confidence := some (82 / 100),
    message := none, payloadText := none }

/-- A full data URI as a caller might pass to `sendFrame`. -/
def dataUriFrame : List Char := "data:image/jpeg;base64,QUJD".toList

/- ### Helper lemmas about the scorer -/

lemma jsRound_intCast (n : ℤ) : jsRound (n : ℝ) = n := by
  have h : ⌊(n : ℝ) + 1/2⌋ = n := by
    rw [Int.floor_eq_iff]
    constructor
    · norm_num
    · norm_num
  rw [jsRound, h]

lemma brightnessStep (b x : ℝ) :
    (if b < 30 ∨ b > 240 then x - 30
     else if b < 50 ∨ b > 200 then x - 15 else x) =
      x - (specBrightnessPenalty b : ℝ) := by
  unfold specBrightnessPenalty
  split_ifs <;> norm_num

lemma contrastStep (c x : ℝ) :
    (if c < 20 then x - 20 else if c < 40 then x - 10 else x) =
      x - (specContrastPenalty c : ℝ) := by
  unfold specContrastPenalty
  split_ifs <;> norm_num

lemma sharpnessStep (s x : ℝ) :
    (if s < 30 then x - 40 else if s < 60 then x - 20 else x) =
      x - (specSharpnessPenalty s : ℝ) := by
  unfold specSharpnessPenalty
  split_ifs <;> norm_num

lemma stabilityStep (st x : ℝ) :
    (if st < 50 then x - 20 else if st < 75 then x - 10 else x) =
      x - (specStabilityPenalty st : ℝ) := by
  unfold specStabilityPenalty
  split_ifs <;> norm_num

lemma scoreRaw_eq (b c s st : ℝ) :
    scoreRaw b c s st = ((100 - specTotalPenalty b c s st : ℤ) : ℝ) := by
  unfold scoreRaw
  dsimp only
  rw [brightnessStep, contrastStep, sharpnessStep, stabilityStep]
  unfold specTotalPenalty
  push_cast
  ring

lemma scoreOf_eq (b c s st : ℝ) :
    scoreOf b c s st = ((max 0 (100 - specTotalPenalty b c s st) : ℤ) : ℝ) := by
  rw [scoreOf, scoreRaw_eq, jsRound_intCast]
  norm_cast

lemma specBrightnessPenalty_mem (b : ℝ) :
    0 ≤ specBrightnessPenalty b ∧ specBrightnessPenalty b ≤ 30 := by
  unfold specBrightnessPenalty
  split_ifs <;> norm_num

lemma specContrastPenalty_mem (c : ℝ) :
    0 ≤ specContrastPenalty c ∧ specContrastPenalty c ≤ 20 := by
  unfold specContrastPenalty
  split_ifs <;> norm_num

lemma specSharpnessPenalty_mem (s : ℝ) :
    0 ≤ specSharpnessPenalty s ∧ specSharpnessPenalty s ≤ 40 := by
  unfold specSharpnessPenalty
  split_ifs <;> norm_num

lemma specStabilityPenalty_mem (st : ℝ) :
    0 ≤ specStabilityPenalty st ∧ specStabilityPenalty st ≤ 20 := by
  unfold specStabilityPenalty
  split_ifs <;> norm_num

lemma specTotalPenalty_nonneg (b c s st : ℝ) : 0 ≤ specTotalPenalty b c s st := by
  have hb := (specBrightnessPenalty_mem b).1
  have hc := (specContrastPenalty_mem c).1
  have hs := (specSharpnessPenalty_mem s).1
  have hst := (specStabilityPenalty_mem st).1
  unfold specTotalPenalty
  omega

/-- Claim C1: for every metric input, the composite score computed by
`assessFrameQuality` (its `score` path, `scoreOf`) equals 100 minus the
four penalties described by the spec table, floored at 0, and therefore
always lies in [0, 100]. -/
theorem scoreOf_is_penalty_sum_clamped (b c s st : ℝ) :
    scoreOf b c s st = ((max 0 (100 - specTotalPenalty b c s st) : ℤ) : ℝ) ∧
    0 ≤ scoreOf b c s st ∧ scoreOf b c s st ≤ 100 := by
  have h := scoreOf_eq b c s st
  have hp := specTotalPenalty_nonneg b c s st
  refine ⟨h, ?_, ?_⟩
  · rw [h]
    exact_mod_cast le_max_left 0 _
  · rw [h]
    have : (max 0 (100 - specTotalPenalty b c s st) : ℤ) ≤ 100 := by omega
    exact_mod_cast this

/-- Claim C8: the composite score is monotonically non-increasing as any
single metric's penalty condition worsens while the others are fixed;
in particular, decreasing sharpness from 70 to 20 with the other three
metrics unchanged cannot increase the score. -/
theorem scoreOf_antitone_in_penalties :
    (∀ b b' c c' s s' st st' : ℝ,
      specBrightnessPenalty b ≤ specBrightnessPenalty b' →
      specContrastPenalty c ≤ specContrastPenalty c' →
      specSharpnessPenalty s ≤ specSharpnessPenalty s' →
      specStabilityPenalty st ≤ specStabilityPenalty st' →
      scoreOf b' c' s' st' ≤ scoreOf b c s st) ∧
    (∀ b c st : ℝ, scoreOf b c 20 st ≤ scoreOf b c 70 st) := by
  have main : ∀ b b' c c' s s' st st' : ℝ,
      specBrightnessPenalty b ≤ specBrightnessPenalty b' →
      specContrastPenalty c ≤ specContrastPenalty c' →
      specSharpnessPenalty s ≤ specSharpnessPenalty s' →
      specStabilityPenalty st ≤ specStabilityPenalty st' →
      scoreOf b' c' s' st' ≤ scoreOf b c s st := by
    intro b b' c c' s s' st st' hb hc hs hst
    rw [scoreOf_eq, scoreOf_eq]
    have : (max 0 (100 - specTotalPenalty b' c' s' st') : ℤ) ≤
        max 0 (100 - specTotalPenalty b c s st) := by
      unfold specTotalPenalty
      omega
    exact_mod_cast this
  refine ⟨main, ?_⟩
  intro b c st
  refine main b b c c 70 20 st st le_rfl le_rfl ?_ le_rfl
  have h70 : specSharpnessPenalty 70 = 0 := by
    unfold specSharpnessPenalty
    rw [if_neg (by norm_num), if_neg (by norm_num)]
  have h20 : specSharpnessPenalty 20 = 40 := by
    unfold specSharpnessPenalty
    rw [if_pos (by norm_num)]
  rw [h70, h20]
  norm_num

/-- Witness for C8: the concrete instance from the claim — dropping
sharpness from 70 to 20 at brightness 128, contrast 50, stability 100
does not increase the score. -/
theorem scoreOf_antitone_witness : scoreOf 128 50 20 100 ≤ scoreOf 128 50 70 100 :=
  scoreOf_antitone_in_penalties.2 128 50 100

/- ### Stability lemmas and claims C2, C3, C9 -/

lemma estimateStability_none (curr : ImageData) : estimateStability none curr = 100 := rfl

lemma estimateStability_some (p curr : ImageData) :
    estimateStability (some p) curr = max 0 (100 - specAvgDiff p curr / 30 * 100) := rfl

lemma specAvgDiff_nonneg (p curr : ImageData) : 0 ≤ specAvgDiff p curr := by
  unfold specAvgDiff
  refine div_nonneg (List.sum_nonneg ?_) (by positivity)
  intro x hx
  rcases List.mem_map.mp hx with ⟨i, _, rfl⟩
  positivity

/-- Claim C3: `estimateStability(null, buf)` is 100 for every buffer;
and on a pair of equally sized nonempty buffers it is the linear map
`max 0 (100 - avgDiff / 30 * 100)` of the average absolute per-sample
difference, which is 100 at average difference 0 and 0 from average
difference 30 up, and always lies in [0, 100]. -/
theorem estimateStability_linear_map :
    (∀ curr : ImageData, estimateStability none curr = 100) ∧
    (∀ p curr : ImageData, 0 < p.data.length → p.data.length = curr.data.length →
      estimateStability (some p) curr = max 0 (100 - specAvgDiff p curr / 30 * 100) ∧
      0 ≤ estimateStability (some p) curr ∧
      estimateStability (some p) curr ≤ 100 ∧
      (specAvgDiff p curr = 0 → estimateStability (some p) curr = 100) ∧
      (30 ≤ specAvgDiff p curr → estimateStability (some p) curr = 0)) := by
  refine ⟨fun curr => rfl, fun p curr hpos hlen => ?_⟩
  have hd := specAvgDiff_nonneg p curr
  refine ⟨estimateStability_some p curr, ?_, ?_, ?_, ?_⟩
  · rw [estimateStability_some]
    exact le_max_left 0 _
  · rw [estimateStability_some]
    have : 0 ≤ specAvgDiff p curr / 30 * 100 := by positivity
    refine max_le (by norm_num) (by linarith)
  · intro h0
    rw [estimateStability_some, h0]
    norm_num
  · intro h30
    rw [estimateStability_some]
    have : (100 : ℚ) ≤ specAvgDiff p curr / 30 * 100 := by
      have h1 : (1 : ℚ) ≤ specAvgDiff p curr / 30 := by
        rw [le_div_iff₀ (by norm_num)]
        linarith
      linarith
    exact max_eq_left (by linarith)

/-- Witness for C3: two identical 1-by-1 black frames — positive equal
lengths, average difference 0, stability 100. -/
theorem estimateStability_linear_map_witness :
    (0 < black1.data.length ∧ specAvgDiff black1 black1 = 0) ∧
    estimateStability (some black1) black1 = 100 := by
  have hidx : sampleIndices 4 = [0] := by decide
  have h0 : specAvgDiff black1 black1 = 0 := by
    unfold specAvgDiff black1
    norm_num [hidx]
  refine ⟨⟨by norm_num [black1], h0⟩, ?_⟩
  exact ((estimateStability_linear_map.2 black1 black1 (by norm_num [black1]) rfl).2.2.2.1 h0)

/-- Claim C2 (refuted by the code): on the smallest valid buffers the
estimators leave their documented ranges — a 1-by-1 white buffer gets
brightness 1020 (the divisor `data.length / 16` is 1/4, not the sample
count), and a 3-by-3 buffer (dimensions below the sampling stride)
makes `estimateSharpness` divide 0 by 0, i.e. return NaN (embedded as
`none`). -/
theorem tiny_buffer_metrics_out_of_range :
    estimateBrightness whiteOne = 1020 ∧ estimateSharpness tiny3 = none := by
  constructor
  · have hidx : sampleIndices 4 = [0] := by decide
    unfold estimateBrightness lumSamples whiteOne
    norm_num [hidx, lum, List.getD_cons_zero, List.getD_cons_succ]
  · simp [estimateSharpness, sharpnessGrads, strideCoords, tiny3]

/-- Claim C9: the result view of `LiveVideoAnalysis` reads the same
confidence on two scales — the success indicator compares it with 70
(percent scale) while the displayed number is `round(confidence * 100)`
(fraction scale); at confidence 0.82 the display reads 82% but the
indicator shows the below-threshold state (which a percent-scale 82
would not). -/
theorem confidence_scale_mismatch :
    resultConfidence (some (82 / 100)) = 82 / 100 ∧
    displayedPercent (82 / 100) = 82 ∧
    successIndicator (82 / 100) = false ∧
    successIndicator 82 = true := by
  refine ⟨rfl, ?_, ?_, ?_⟩
  · unfold displayedPercent
    rw [Int.floor_eq_iff]
    constructor
    · norm_num
    · norm_num
  · simp [successIndicator]
    norm_num
  · simp [successIndicator]
    norm_num

/- ### Evaluation of the estimators on the all-black 8-by-8 buffer -/

lemma getD_replicate_zero (n i : ℕ) : (List.replicate n (0 : ℕ)).getD i 0 = 0 := by
  induction n generalizing i with
  | zero => simp
  | succ n ih =>
    cases i with
    | zero => simp [List.replicate_succ]
    | succ j => simp [List.replicate_succ, List.getD_cons_succ, ih]

lemma lum_zero : lum 0 0 0 = 0 := by norm_num [lum]

lemma lumSamples_replicate_zero (n : ℕ) :
    ∀ x ∈ lumSamples (List.replicate n 0), x = 0 := by
  intro x hx
  rcases List.mem_map.mp hx with ⟨i, -, rfl⟩
  simp [getD_replicate_zero, lum_zero]

lemma estimateBrightness_black8 : estimateBrightness black8 = 0 := by
  have h : (lumSamples black8.data).sum = 0 :=
    List.sum_eq_zero (by
      intro x hx
      exact lumSamples_replicate_zero 256 x hx)
  rw [estimateBrightness, h, zero_div]

lemma contrastVariance_black8 : contrastVariance black8 = 0 := by
  have hmean : contrastMean black8 = 0 := by
    have h : (lumSamples black8.data).sum = 0 :=
      List.sum_eq_zero (by
        intro x hx
        exact lumSamples_replicate_zero 256 x hx)
    rw [contrastMean, h, zero_div]
  have h : ((lumSamples black8.data).map (fun p => (p - contrastMean black8) ^ 2)).sum = 0 := by
    refine List.sum_eq_zero ?_
    intro x hx
    rcases List.mem_map.mp hx with ⟨p, hp, rfl⟩
    rw [lumSamples_replicate_zero 256 p hp, hmean]
    ring
  rw [contrastVariance, h, zero_div]

lemma estimateContrast_black8 : estimateContrast black8 = 0 := by
  rw [estimateContrast, contrastVariance_black8]
  simp

lemma sharpnessGrads_black8 : sharpnessGrads black8 = [(0, 0)] := by decide

lemma estimateSharpness_black8 : estimateSharpness black8 = some 0 := by
  rw [estimateSharpness, sharpnessGrads_black8]
  have hs : Real.sqrt (((0 : ℕ) : ℝ) ^ 2 + ((0 : ℕ) : ℝ) ^ 2) = 0 := by
    norm_num
  simp [hs]

lemma specAvgDiff_black8 : specAvgDiff black8 black8 = 0 := by
  have h : ((sampleIndices black8.data.length).map (fun i =>
      (((black8.data.getD i 0 : ℤ) - black8.data.getD i 0).natAbs : ℚ))).sum = 0 := by
    refine List.sum_eq_zero ?_
    intro x hx
    rcases List.mem_map.mp hx with ⟨i, -, rfl⟩
    simp
  rw [specAvgDiff, h, zero_div]

lemma estimateStability_black8 : estimateStability (some black8) black8 = 100 := by
  rw [estimateStability_some, specAvgDiff_black8]
  norm_num

lemma jsRound_zero : jsRound 0 = 0 := by
  have h := jsRound_intCast 0
  simpa using h

lemma jsRound_hundred : jsRound 100 = 100 := by
  have h := jsRound_intCast 100
  simpa using h

lemma scoreOf_black : scoreOf 0 0 0 100 = 10 := by
  rw [scoreOf_eq]
  have hb : specBrightnessPenalty 0 = 30 := by
    unfold specBrightnessPenalty
    rw [if_pos]
    left
    norm_num
  have hc : specContrastPenalty 0 = 20 := by
    unfold specContrastPenalty
    rw [if_pos]
    norm_num
  have hs : specSharpnessPenalty 0 = 40 := by
    unfold specSharpnessPenalty
    rw [if_pos]
    norm_num
  have hst : specStabilityPenalty 100 = 0 := by
    unfold specStabilityPenalty
    rw [if_neg (by norm_num), if_neg (by norm_num)]
  rw [specTotalPenalty, hb, hc, hs, hst]
  norm_num

lemma assess_black8 (prev : Option ImageData)
    (hstab : estimateStability prev black8 = 100) :
    assessFrameQuality black8 prev =
      some { brightness := 0, contrast := 0, sharpness := 0,
             stability := 100, score := 10 } := by
  rw [assessFrameQuality, estimateSharpness_black8]
  simp only [Option.map_some']
  have hb : ((estimateBrightness black8 : ℚ) : ℝ) = 0 := by
    rw [estimateBrightness_black8]
    norm_num
  have hstabR : ((estimateStability prev black8 : ℚ) : ℝ) = 100 := by
    rw [hstab]
    norm_num
  rw [hb, hstabR, estimateContrast_black8, jsRound_zero, jsRound_hundred, scoreOf_black]

/- ### Claim C4: fallback emission on below-threshold ticks -/

/-- Claim C4: on every capture tick where a frame can be captured but
its assessed quality fails the configured threshold, the frame is still
emitted to `onFrame`, tagged with the placeholder record
`{brightness: 0, contrast: 0, sharpness: 0, stability: 100, score: 50}`;
in particular three consecutive below-threshold ticks each emit a
frame. -/
theorem captureTick_fallback :
    (∀ (prev : Option ImageData) (img : ImageData) (m : FrameMetrics) (minQ : ℝ),
      assessFrameQuality img prev = some m →
      ¬ isFrameGoodQuality m minQ →
      captureTick prev (some img) minQ =
        some (some img, some (img, placeholderMetrics))) ∧
    (∀ (prev : Option ImageData) (i1 i2 i3 : ImageData)
        (m1 m2 m3 : FrameMetrics) (minQ : ℝ),
      assessFrameQuality i1 prev = some m1 → ¬ isFrameGoodQuality m1 minQ →
      assessFrameQuality i2 (some i1) = some m2 → ¬ isFrameGoodQuality m2 minQ →
      assessFrameQuality i3 (some i2) = some m3 → ¬ isFrameGoodQuality m3 minQ →
      runTicks prev [some i1, some i2, some i3] minQ =
        some (some i3,
          [some (i1, placeholderMetrics), some (i2, placeholderMetrics),
           some (i3, placeholderMetrics)])) ∧
    placeholderMetrics =
      { brightness := 0, contrast := 0, sharpness := 0,
        stability := 100, score := 50 } := by
  have step : ∀ (prev : Option ImageData) (img : ImageData) (m : FrameMetrics) (minQ : ℝ),
      assessFrameQuality img prev = some m →
      ¬ isFrameGoodQuality m minQ →
      captureTick prev (some img) minQ =
        some (some img, some (img, placeholderMetrics)) := by
    intro prev img m minQ hm hq
    simp only [captureTick, hm, Option.map_some']
    rw [if_neg hq]
  refine ⟨step, ?_, rfl⟩
  intro prev i1 i2 i3 m1 m2 m3 minQ h1 q1 h2 q2 h3 q3
  have e1 := step prev i1 m1 minQ h1 q1
  have e2 := step (some i1) i2 m2 minQ h2 q2
  have e3 := step (some i2) i3 m3 minQ h3 q3
  simp [runTicks, e1, e2, e3]

/-- Witness for C4: three consecutive all-black 8-by-8 frames score 10,
failing the default threshold 70, and every tick still emits the frame
with the placeholder metrics. -/
theorem captureTick_fallback_witness :
    runTicks none [some black8, some black8, some black8] 70 =
      some (some black8,
        [some (black8, placeholderMetrics), some (black8, placeholderMetrics),
         some (black8, placeholderMetrics)]) := by
  have hm1 := assess_black8 none (estimateStability_none black8)
  have hm2 := assess_black8 (some black8) estimateStability_black8
  have hq : ¬ isFrameGoodQuality
      { brightness := 0, contrast := 0, sharpness := 0,
        stability := 100, score := 10 } 70 := by
    simp only [isFrameGoodQuality]
    norm_num
  exact captureTick_fallback.2.1 none black8 black8 black8 _ _ _ 70
    hm1 hq hm2 hq hm2 hq

/- ### Claim C5: inbound-message dispatch -/

/-- Claim C5: `processing_started` sets `isProcessing`; `token`/`partial`
only update the current result; `complete` updates the current result
and clears `isProcessing` (so a `complete` received while processing
flips `isProcessing` from true to false and leaves a current result of
type `complete`); `error`/`dropped` update the current result and
clear `isProcessing`; `low_confidence`/`quality_warning` only update
the current result; a malformed message changes nothing. -/
theorem onMessage_dispatch (s : WsState) (d : VisionResult) :
    (d.rtype = "processing_started" →
      onMessage s (some d) = { s with isProcessing := true }) ∧
    (d.rtype = "token" ∨ d.rtype = "partial" →
      onMessage s (some d) = { s with currentResult := some d }) ∧
    (d.rtype = "complete" →
      onMessage s (some d) =
        { s with currentResult := some d, isProcessing := false }) ∧
    (d.rtype = "complete" → s.isProcessing = true →
      (onMessage s (some d)).isProcessing = false ∧
      ∃ r, (onMessage s (some d)).currentResult = some r ∧
        r.rtype = "complete") ∧
    (d.rtype = "error" ∨ d.rtype = "dropped" →
      onMessage s (some d) =
        { s with currentResult := some d, isProcessing := false }) ∧
    (d.rtype = "low_confidence" ∨ d.rtype = "quality_warning" →
      onMessage s (some d) = { s with currentResult := some d }) ∧
    onMessage s none = s := by
  refine ⟨?_, ?_, ?_, ?_, ?_, ?_, rfl⟩
  · intro h
    simp [onMessage, handleParsed, h]
  · rintro (h | h) <;> simp [onMessage, handleParsed, h]
  · intro h
    simp [onMessage, handleParsed, h]
  · intro h hproc
    refine ⟨by simp [onMessage, handleParsed, h], d,
      by simp [onMessage, handleParsed, h], h⟩
  · rintro (h | h) <;> simp [onMessage, handleParsed, h]
  · rintro (h | h) <;> simp [onMessage, handleParsed, h]

/-- Witness for C5: a `complete` message received while processing
flips `isProcessing` from true to false and stores the message as the
current result. -/
theorem onMessage_dispatch_witness :
    wsProcessing.isProcessing = true ∧ dComplete.rtype = "complete" ∧
    (onMessage wsProcessing (some dComplete)).isProcessing = false ∧
    (onMessage wsProcessing (some dComplete)).currentResult = some dComplete := by
  have h := (onMessage_dispatch wsProcessing dComplete).2.2.1 rfl
  exact ⟨rfl, rfl, by rw [h], by rw [h]⟩

/- ### Claim C6: sendFrame -/

lemma comma_not_mem_stripFrameData (frame : List Char) :
    ',' ∉ stripFrameData frame := by
  unfold stripFrameData
  split_ifs with h
  · intro hmem
    have h2 := List.mem_takeWhile_imp hmem
    simp at h2
  · intro hmem
    exact h hmem

/-- Claim C6: while the channel is open, `sendFrame` transmits
`{type: "frame", data, session_id}` whose `data` field is the input
with any data-URI head stripped — it can never contain a
`data:image/...;base64,` segment because it never contains a comma —
and while the channel is not open the call transmits nothing and
changes no state. -/
theorem sendFrame_contract (s : WsState) (frame : List Char) (sid : Option String) :
    (currentSocketOpen s = true →
      sendFrame s frame sid =
        (s, some { ptype := "frame", data := stripFrameData frame,
                   session_id := sid })) ∧
    (currentSocketOpen s = false → sendFrame s frame sid = (s, none)) ∧
    ',' ∉ stripFrameData frame ∧
    (∀ mime pre suf : List Char,
      stripFrameData frame ≠
        pre ++ ("data:image/".toList ++ mime ++ ";base64,".toList) ++ suf) := by
  refine ⟨?_, ?_, comma_not_mem_stripFrameData frame, ?_⟩
  · intro h
    rw [sendFrame, if_pos h]
  · intro h
    rw [sendFrame, if_neg]
    simp [h]
  · intro mime pre suf heq
    have hmem : ',' ∈ stripFrameData frame := by
      rw [heq]
      have hb : ',' ∈ ";base64,".toList := by decide
      have hmid : ',' ∈ "data:image/".toList ++ mime ++ ";base64,".toList :=
        List.mem_append.mpr (Or.inr hb)
      exact List.mem_append.mpr (Or.inl (List.mem_append.mpr (Or.inr hmid)))
    exact comma_not_mem_stripFrameData frame hmem

/-- Witness for C6: on an open channel, sending a full
`data:image/jpeg;base64,` URI transmits only the bare base64 body. -/
theorem sendFrame_contract_witness :
    currentSocketOpen stOpen = true ∧
    sendFrame stOpen dataUriFrame none =
      (stOpen, some { ptype := "frame", data := "QUJD".toList,
                      session_id := none }) := by
  have h := (sendFrame_contract stOpen dataUriFrame none).1 (by decide)
  refine ⟨by decide, ?_⟩
  rw [h]
  decide

/- ### Claim C7: stop and teardown -/

/-- Counterexample to C7: stopping a live session leaves the
previous-frame snapshot reference set — `stopStream` (and the unmount
cleanup) never clear `prevImageDataRef`. -/
theorem stopStream_retains_prev_snapshot :
    (stopStream s7).prevImageData = some black1 ∧
    ¬ (stopStream s7).prevImageData = none := by
  exact ⟨by decide, by decide⟩

/-- Amended C7: after `stopStream` on a live session the capture
interval condition is false, every camera track is stopped and the
stream reference is nulled — and the unmount cleanup stops the tracks
likewise — but the previous-frame snapshot reference is retained
unchanged by both paths, not cleared. -/
theorem stopStream_releases_but_keeps_snapshot (s : CaptureState) (cs : CamStream)
    (h : s.streamRef = some cs) (hasOnFrame : Bool) :
    (stopStream s).streamRef = none ∧
    (stopStream s).isStreaming = false ∧
    intervalInstalled (stopStream s) hasOnFrame = false ∧
    (∀ t ∈ cs.tracks, { t with stopped := true } ∈ (stopStream s).releasedTracks) ∧
    (stopStream s).prevImageData = s.prevImageData ∧
    (unmountCleanup s).streamRef = none ∧
    (∀ t ∈ cs.tracks, { t with stopped := true } ∈ (unmountCleanup s).releasedTracks) ∧
    (unmountCleanup s).prevImageData = s.prevImageData := by
  have hstop : stopStream s =
      { s with
          streamRef := none
          isStreaming := false
          releasedTracks :=
            s.releasedTracks ++ cs.tracks.map (fun t => { t with stopped := true }) } := by
    unfold stopStream
    rw [h]
  have hclean : unmountCleanup s =
      { s with
          streamRef := none
          releasedTracks :=
            s.releasedTracks ++ cs.tracks.map (fun t => { t with stopped := true }) } := by
    unfold unmountCleanup
    rw [h]
  rw [hstop, hclean, intervalInstalled]
  refine ⟨rfl, rfl, rfl, ?_, rfl, rfl, ?_, rfl⟩
  · intro t ht
    exact List.mem_append_right _ (List.mem_map_of_mem _ ht)
  · intro t ht
    exact List.mem_append_right _ (List.mem_map_of_mem _ ht)

/-- Witness for the amended C7, on the live one-track session. -/
theorem stopStream_releases_witness :
    (stopStream s7).streamRef = none ∧
    (stopStream s7).isStreaming = false ∧
    intervalInstalled (stopStream s7) true = false ∧
    (∀ t ∈ camOne.tracks, { t with stopped := true } ∈ (stopStream s7).releasedTracks) ∧
    (stopStream s7).prevImageData = s7.prevImageData ∧
    (unmountCleanup s7).streamRef = none ∧
    (∀ t ∈ camOne.tracks, { t with stopped := true } ∈ (unmountCleanup s7).releasedTracks) ∧
    (unmountCleanup s7).prevImageData = s7.prevImageData :=
  stopStream_releases_but_keeps_snapshot s7 camOne rfl true

/- ### Claim C10: reconnect and the old handle -/

/-- Counterexample to C10: calling `connect` again while a handle is
already held overwrites the reference with the new handle but leaves
the old socket neither closed (readyState still 0) nor detached (its
listeners are still attached). -/
theorem connect_does_not_discard_old_handle :
    (connect (connect ws0)).wsRef = some 1 ∧
    ((connect (connect ws0)).sockets.getD 0
        { readyState := 3, listenersAttached := false }).listenersAttached = true ∧
    ((connect (connect ws0)).sockets.getD 0
        { readyState := 3, listenersAttached := false }).readyState = 0 := by
  exact ⟨by decide, by decide, by decide⟩

/-- Amended C10: `connect` appends a fresh handle and repoints `wsRef`
at it, leaving every previously created handle byte-for-byte untouched
(neither closed nor detached); the previous handle is only discarded by
an explicit `disconnect` before reconnecting. -/
theorem connect_overwrites_reference (s : WsState) :
    (connect s).wsRef = some s.sockets.length ∧
    (connect s).sockets =
      s.sockets ++ [{ readyState := 0, listenersAttached := true }] ∧
    (∀ i, i < s.sockets.length →
      (connect s).sockets.getD i { readyState := 3, listenersAttached := false } =
        s.sockets.getD i { readyState := 3, listenersAttached := false }) := by
  refine ⟨rfl, rfl, ?_⟩
  intro i hi
  exact List.getD_append _ _ _ _ hi

/-- Witness for the amended C10: after a second `connect`, the first
socket record is unchanged and the reference points at the second. -/
theorem connect_overwrites_reference_witness :
    (connect (connect ws0)).sockets.getD 0
        { readyState := 3, listenersAttached := false } =
      (connect ws0).sockets.getD 0
        { readyState := 3, listenersAttached := false } ∧
    (connect (connect ws0)).wsRef = some 1 := by
  have h := connect_overwrites_reference (connect ws0)
  refine ⟨h.2.2 0 (by decide), ?_⟩
  have h1 := h.1
  rw [h1]
  decide
